import Mathlib

/-!
Verification of the arrow-combo arcade game core.

The source is a React component (`src/unnamed/part_001`) plus constants
(`src/unnamed/part_000`) and type declarations (`src/types.ts`).  The
simulation state lives in React `useState` cells and `useRef` cells; we
collect all of them in one `AppState` record and embed each callback of the
source (`resetGame`, `cleanupCombo`, `resumeGame`, `animateComboBar`,
`handlePauseCombo`, `gameLoop`, `handleKeyDown`, `handleKeyUp`) as a pure
function on `AppState`.

Numbers: all JS numbers involved here are small exact values (integers, or
products of `Math.random()` with integers), so we model them as rationals.
Wall-clock readings (`Date.now()`) and the random draw (`Math.random()`)
are passed in as explicit arguments.

React semantics embedded faithfully:
* functional state updates (`setX(f)`) issued inside one callback are queued
  and applied in order, so within one callback a later `setObjects` sees the
  effect of an earlier `setObjects`;
* a plain read of a state variable inside a callback (such as `player.x` in
  `gameLoop`'s collision test) yields the value captured by the render
  closure, i.e. the value the state had when the callback was created —
  NOT the value of updates queued earlier in the same callback invocation.
-/

namespace ArrowCombo

/-- `GameState` enum from `src/types.ts`. -/
inductive GameState where
  | Ready
  | Active
  | Paused
  | GameOver
deriving DecidableEq, Repr

/-- `PlayerState` from `src/types.ts`: `x`, `width`, `height`. -/
structure PlayerState where
  x : ℚ
  width : ℚ
  height : ℚ
deriving DecidableEq, Repr

/-- `FallingObject` from `src/types.ts`: `id`, `x`, `y`, `size`. -/
structure FallingObject where
  id : ℚ
  x : ℚ
  y : ℚ
  size : ℚ
deriving DecidableEq, Repr

/-! Constants from `src/unnamed/part_000`. -/

def GAME_WIDTH : ℚ := 600
def GAME_HEIGHT : ℚ := 800
def PAUSE_COMBO_TIMEOUT : ℚ := 4000
def PLAYER_WIDTH : ℚ := 60
def PLAYER_HEIGHT : ℚ := 20
def PLAYER_Y_POSITION : ℚ := GAME_HEIGHT - PLAYER_HEIGHT - 20
def PLAYER_SPEED : ℚ := 8
def OBJECT_SIZE : ℚ := 25
def OBJECT_SPEED : ℚ := 4
def OBJECT_SPAWN_INTERVAL : ℚ := 500

/-- The whole mutable state of the `App` component: the five `useState`
cells (`gameState`, `player`, `objects`, `score`, `pauseComboProgress`) and
the mutable refs (`keysPressed`, `lastObjectSpawn`, `lastComboPressTime`,
`comboStartTimeRef`, `comboAnimationRef`).  `comboAnimationActive` models
whether `comboAnimationRef.current` holds a pending animation-frame request.
The held-key `Set<string>` is a duplicate-free list read through
`List.contains`. -/
structure AppState where
  gameState : GameState
  player : PlayerState
  objects : List FallingObject
  score : ℕ
  pauseComboProgress : ℚ
  keysPressed : List String
  lastObjectSpawn : ℚ
  lastComboPressTime : ℚ
  comboStartTime : ℚ
  comboAnimationActive : Bool
deriving DecidableEq, Repr

/-- The player record built both in the `useState` initializer (line 83)
and in `resetGame` (line 96):
`{ x: GAME_WIDTH / 2 - PLAYER_WIDTH / 2, width: PLAYER_WIDTH, height: PLAYER_HEIGHT }`. -/
def initialPlayer : PlayerState :=
  { x := GAME_WIDTH / 2 - PLAYER_WIDTH / 2
    width := PLAYER_WIDTH
    height := PLAYER_HEIGHT }

/-- `resetGame` (lines 95-101): reset player, clear objects, zero score,
clear held keys, enter `Active`.  Note: it touches none of the combo fields
(`lastComboPressTime`, `comboStartTimeRef`, `comboAnimationRef`,
`pauseComboProgress`). -/
def resetGame (s : AppState) : AppState :=
  { s with
      player := initialPlayer
      objects := []
      score := 0
      keysPressed := []
      gameState := GameState.Active }

/-- `cleanupCombo` (lines 103-109): zero `lastComboPressTime`, cancel a
pending decay animation frame, zero the exposed progress. -/
def cleanupCombo (s : AppState) : AppState :=
  { s with
      lastComboPressTime := 0
      comboAnimationActive := false
      pauseComboProgress := 0 }

/-- `resumeGame` (lines 111-117): only from `Paused`; clears held keys,
runs `cleanupCombo`, enters `Active`. -/
def resumeGame (s : AppState) : AppState :=
  if s.gameState = GameState.Paused then
    { cleanupCombo { s with keysPressed := [] } with gameState := GameState.Active }
  else s

/-- One run of the `animateComboBar` callback (lines 119-131) at wall-clock
time `now`: recompute the decaying progress; while positive re-arm the
animation frame, once it reaches 0 clear `lastComboPressTime` (combo timed
out) and stop re-arming. -/
def animateComboBar (now : ℚ) (s : AppState) : AppState :=
  let elapsed := now - s.comboStartTime
  let progress := max 0 (50 * (1 - elapsed / PAUSE_COMBO_TIMEOUT))
  if progress > 0 then
    { s with pauseComboProgress := progress, comboAnimationActive := true }
  else
    { s with
        pauseComboProgress := progress
        lastComboPressTime := 0
        comboAnimationActive := false }

/-- `handlePauseCombo` (lines 133-155) at wall-clock time `now`: ignored
unless `Active` or `Paused`; if `now - lastComboPressTime <
PAUSE_COMBO_TIMEOUT` it is treated as the double press (toggle
`Active`/`Paused`, then `cleanupCombo`), otherwise it is a first press
(record `lastComboPressTime = comboStartTime = now`, restart the decay
animation). -/
def handlePauseCombo (now : ℚ) (s : AppState) : AppState :=
  if s.gameState ≠ GameState.Active ∧ s.gameState ≠ GameState.Paused then s
  else if now - s.lastComboPressTime < PAUSE_COMBO_TIMEOUT then
    cleanupCombo
      { s with
          gameState :=
            if s.gameState = GameState.Active then GameState.Paused
            else if s.gameState = GameState.Paused then GameState.Active
            else s.gameState }
  else
    { s with
        lastComboPressTime := now
        comboStartTime := now
        comboAnimationActive := true }

/-- The player-movement functional update passed to `setPlayer` in
`gameLoop` (lines 165-171). -/
def movePlayer (keys : List String) (p : PlayerState) : PlayerState :=
  let newX0 := p.x
  let newX1 := if keys.contains "ArrowLeft" then newX0 - PLAYER_SPEED else newX0
  let newX2 := if keys.contains "ArrowRight" then newX1 + PLAYER_SPEED else newX1
  { p with x := max 0 (min (GAME_WIDTH - PLAYER_WIDTH) newX2) }

/-- The `newObject` literal of `gameLoop` (lines 177-182), with `r` the
value drawn from `Math.random()`. -/
def mkSpawnedObject (now r : ℚ) : FallingObject :=
  { id := now
    x := r * (GAME_WIDTH - OBJECT_SIZE)
    y := -OBJECT_SIZE
    size := OBJECT_SIZE }

/-- The spawning block of `gameLoop` (lines 174-184): when more than
`OBJECT_SPAWN_INTERVAL` has elapsed since `lastObjectSpawn`, record the new
spawn time and append one freshly created object. -/
def spawnStep (now r : ℚ) (s : AppState) : AppState :=
  if now - s.lastObjectSpawn > OBJECT_SPAWN_INTERVAL then
    { s with
        lastObjectSpawn := now
        objects := s.objects ++ [mkSpawnedObject now r] }
  else s

/-- The per-object movement update `obj => ({ ...obj, y: obj.y + OBJECT_SPEED })`
of `gameLoop` (line 188). -/
def moveObject (o : FallingObject) : FallingObject :=
  { o with y := o.y + OBJECT_SPEED }

/-- The collision condition of `gameLoop` (lines 193-198) against a player
whose left edge is at `px`. -/
def collides (px : ℚ) (o : FallingObject) : Bool :=
  decide (o.y + o.size > PLAYER_Y_POSITION) &&
  decide (o.y < PLAYER_Y_POSITION + PLAYER_HEIGHT) &&
  decide (o.x + o.size > px) &&
  decide (o.x < px + PLAYER_WIDTH)

/-- One invocation of the `gameLoop` callback (lines 158-208), with `now`
the value of `Date.now()` read this tick and `r` the `Math.random()` draw
used if a spawn occurs.  When not `Active` the callback only re-arms the
animation frame and changes no state.  Otherwise the queued updates apply
in order: player movement, spawn, object movement and off-screen filtering,
collision-driven `GameOver`, score increment.  The collision test reads
`player.x` from the render closure (the dependency array of the
`useCallback` is `[gameState, player.x]`), so it uses the player position
as of the start of the tick, before this tick's movement update. -/
def gameLoop (now r : ℚ) (s : AppState) : AppState :=
  if s.gameState ≠ GameState.Active then s
  else
    let p' := movePlayer s.keysPressed s.player
    let s1 := spawnStep now r s
    let updated := (s1.objects.map moveObject).filter (fun o => decide (o.y < GAME_HEIGHT))
    let hit := updated.any (fun o => collides s.player.x o)
    { s1 with
        player := p'
        objects := updated
        gameState := if hit then GameState.GameOver else s1.gameState
        score := s1.score + 1 }

/-- `Set.add` on `keysPressed` (JS sets ignore re-insertion). -/
def addKey (k : String) (keys : List String) : List String :=
  if keys.contains k then keys else keys ++ [k]

/-- `handleKeyDown` (lines 220-227) at wall-clock time `now`: held-repeat
events are dropped; an edge press is added to the held set and, when both
arrow keys are then simultaneously held, `handlePauseCombo` fires. -/
def handleKeyDown (now : ℚ) (isRepeat : Bool) (k : String) (s : AppState) : AppState :=
  if isRepeat then s
  else
    let s1 := { s with keysPressed := addKey k s.keysPressed }
    if s1.keysPressed.contains "ArrowLeft" && s1.keysPressed.contains "ArrowRight" then
      handlePauseCombo now s1
    else s1

/-- `handleKeyUp` (line 228): remove the key from the held set. -/
def handleKeyUp (k : String) (s : AppState) : AppState :=
  { s with keysPressed := s.keysPressed.filter (fun x => x ≠ k) }

/-! ### Helper lemmas -/

/-- `spawnStep` leaves `gameState` untouched. -/
lemma spawnStep_gameState (now r : ℚ) (s : AppState) :
    (spawnStep now r s).gameState = s.gameState := by
  unfold spawnStep; split <;> rfl

/-- `spawnStep` leaves `score` untouched. -/
lemma spawnStep_score (now r : ℚ) (s : AppState) :
    (spawnStep now r s).score = s.score := by
  unfold spawnStep; split <;> rfl

/-- On an `Active` state, `gameLoop` unfolds to its main branch. -/
lemma gameLoop_active (now r : ℚ) (s : AppState) (h : s.gameState = GameState.Active) :
    gameLoop now r s =
      (let s1 := spawnStep now r s
       let updated := (s1.objects.map moveObject).filter (fun o => decide (o.y < GAME_HEIGHT))
       { s1 with
          player := movePlayer s.keysPressed s.player
          objects := updated
          gameState :=
            if updated.any (fun o => collides s.player.x o) then GameState.GameOver
            else s1.gameState
          score := s1.score + 1 }) := by
  unfold gameLoop
  rw [if_neg (by simp [h])]

/-- On a non-`Active` state, `gameLoop` is the identity. -/
lemma gameLoop_inactive (now r : ℚ) (s : AppState) (h : s.gameState ≠ GameState.Active) :
    gameLoop now r s = s := by
  unfold gameLoop
  rw [if_pos h]

/-- The object list after an `Active` tick: the (possibly spawn-extended)
set, moved, with off-screen objects filtered out. -/
lemma gameLoop_objects (now r : ℚ) (s : AppState) (h : s.gameState = GameState.Active) :
    (gameLoop now r s).objects
      = ((spawnStep now r s).objects.map moveObject).filter
          (fun o => decide (o.y < GAME_HEIGHT)) := by
  rw [gameLoop_active now r s h]

/-- The object list produced by the spawning block. -/
lemma spawnStep_objects (now r : ℚ) (s : AppState) :
    (spawnStep now r s).objects
      = if now - s.lastObjectSpawn > OBJECT_SPAWN_INTERVAL
        then s.objects ++ [mkSpawnedObject now r] else s.objects := by
  unfold spawnStep
  split <;> rfl

/-- Unfolding of the collision test into the four strict inequalities. -/
lemma collides_iff (px : ℚ) (o : FallingObject) :
    collides px o = true ↔
      (o.y + o.size > PLAYER_Y_POSITION ∧ o.y < PLAYER_Y_POSITION + PLAYER_HEIGHT
        ∧ o.x + o.size > px ∧ o.x < px + PLAYER_WIDTH) := by
  unfold collides
  simp [Bool.and_eq_true, decide_eq_true_eq, and_assoc]

/-! ### Concrete states used as inputs of counterexamples and witnesses -/

/-- A `GameOver` state reached while a pause combo was still pending: the
decay animation is running, `lastComboPressTime` is set, the exposed
progress is positive.  (Reachable: arm the combo while `Active`, then
collide before the second press.) -/
def comboLingerState : AppState :=
  { gameState := GameState.GameOver
    player := initialPlayer
    objects := []
    score := 42
    pauseComboProgress := 30
    keysPressed := []
    lastObjectSpawn := 100000
    lastComboPressTime := 123456
    comboStartTime := 123000
    comboAnimationActive := true }

/-- A live `Active` session with a nonzero score and one falling object. -/
def liveActiveState : AppState :=
  { gameState := GameState.Active
    player := { x := 300, width := 60, height := 20 }
    objects := [{ id := 7, x := 10, y := 50, size := 25 }]
    score := 5
    pauseComboProgress := 0
    keysPressed := ["ArrowLeft"]
    lastObjectSpawn := 2000
    lastComboPressTime := 0
    comboStartTime := 0
    comboAnimationActive := false }

/-- An `Active` state on which the collision-check outcome differs between
the pre-movement and the post-movement player position: moving right from
`x = 100` to `x = 108` brings the player's rectangle under the object at
`x = 165`, which the pre-movement rectangle does not touch. -/
def staleCollisionState : AppState :=
  { gameState := GameState.Active
    player := { x := 100, width := 60, height := 20 }
    objects := [{ id := 1, x := 165, y := 756, size := 25 }]
    score := 0
    pauseComboProgress := 0
    keysPressed := ["ArrowRight"]
    lastObjectSpawn := 1000
    lastComboPressTime := 0
    comboStartTime := 0
    comboAnimationActive := false }

/-- Like `staleCollisionState` but with the object directly above the
player, so the tick does detect the hit. -/
def directHitState : AppState :=
  { staleCollisionState with
      objects := [{ id := 1, x := 100, y := 756, size := 25 }]
      keysPressed := [] }

/-- Within an `Active` tick, the final `gameState` is `GameOver` exactly
when some post-movement object passes the collision test against the
pre-tick player position `s.player.x` (the value captured by the render
closure). -/
lemma gameLoop_gameOver_iff_any (now r : ℚ) (s : AppState)
    (h : s.gameState = GameState.Active) :
    ((gameLoop now r s).gameState = GameState.GameOver
      ↔ (gameLoop now r s).objects.any (fun o => collides s.player.x o) = true) := by
  rw [gameLoop_active now r s h]
  cases hhit : (((spawnStep now r s).objects.map moveObject).filter
      (fun o => decide (o.y < GAME_HEIGHT))).any (fun o => collides s.player.x o)
  · simp [hhit, spawnStep_gameState, h]
  · simp [hhit]

/-! ### Claim C1 -/

/-- Claim C1 counterexample: invoking restart (`resetGame`) on a state with
a lingering pause combo leaves `pauseComboProgress` at 30 (not 0), keeps
`lastComboPressTime` at 123456 (not cleared) and leaves the decay
animation pending (not cancelled) — `resetGame` never touches the combo
fields. -/
theorem resetGame_combo_not_reset :
    (resetGame comboLingerState).pauseComboProgress ≠ 0
    ∧ (resetGame comboLingerState).lastComboPressTime ≠ 0
    ∧ (resetGame comboLingerState).comboAnimationActive = true := by
  decide

/-- Claim C1 (amended): `resetGame` resets player, objects, score and held
keys and enters `Active`, but leaves every pause-combo field
(`pauseComboProgress`, `lastComboPressTime`, `comboStartTime`, the pending
decay animation) exactly as it was; the combo state is reset only by
`cleanupCombo` (combo completion, resume) or by the decay animation timing
out. -/
theorem resetGame_spec (s : AppState) :
    (resetGame s).gameState = GameState.Active
    ∧ (resetGame s).player = initialPlayer
    ∧ (resetGame s).objects = []
    ∧ (resetGame s).score = 0
    ∧ (resetGame s).keysPressed = []
    ∧ (resetGame s).pauseComboProgress = s.pauseComboProgress
    ∧ (resetGame s).lastComboPressTime = s.lastComboPressTime
    ∧ (resetGame s).comboStartTime = s.comboStartTime
    ∧ (resetGame s).comboAnimationActive = s.comboAnimationActive := by
  exact ⟨rfl, rfl, rfl, rfl, rfl, rfl, rfl, rfl, rfl⟩

/-! ### Claim C2 -/

/-- Claim C2 counterexample: in `staleCollisionState`, this tick's movement
step produces `x = 108`, and the post-movement object at `(165, 760)` does
overlap the player rectangle at `x = 108` under the game's own collision
test — yet the tick ends still `Active`, because the collision check was
evaluated against the previous position `x = 100` (`165 < 100 + 60` fails). -/
theorem collision_ignores_same_tick_movement :
    (gameLoop 1000 0 staleCollisionState).player.x = 108
    ∧ (gameLoop 1000 0 staleCollisionState).objects
        = [{ id := 1, x := 165, y := 760, size := 25 }]
    ∧ collides 108 { id := 1, x := 165, y := 760, size := 25 } = true
    ∧ (gameLoop 1000 0 staleCollisionState).gameState = GameState.Active := by
  refine ⟨?_, ?_, ?_, ?_⟩ <;>
    norm_num +decide [gameLoop, spawnStep, movePlayer, moveObject, collides, mkSpawnedObject,
      staleCollisionState, GAME_WIDTH, GAME_HEIGHT, PLAYER_WIDTH, PLAYER_HEIGHT,
      PLAYER_Y_POSITION, PLAYER_SPEED, OBJECT_SIZE, OBJECT_SPEED, OBJECT_SPAWN_INTERVAL,
      List.filter]

/-- Claim C2 (amended): within an `Active` tick the collision check is
evaluated against the player position captured by the render closure — the
position produced by the previous tick, before this tick's movement step is
applied — not against the position this tick's movement step produces: the
tick ends in `GameOver` exactly when some post-movement object overlaps the
pre-movement player rectangle at `s.player.x`. -/
theorem collision_checked_against_previous_position (now r : ℚ) (s : AppState)
    (h : s.gameState = GameState.Active) :
    ((gameLoop now r s).gameState = GameState.GameOver
      ↔ (gameLoop now r s).objects.any (fun o => collides s.player.x o) = true) :=
  gameLoop_gameOver_iff_any now r s h

/-- Claim C2 amended-theorem witness at `staleCollisionState`. -/
theorem collision_checked_against_previous_position_witness :
    ((gameLoop 1000 0 staleCollisionState).gameState = GameState.GameOver
      ↔ (gameLoop 1000 0 staleCollisionState).objects.any
          (fun o => collides staleCollisionState.player.x o) = true) :=
  collision_checked_against_previous_position 1000 0 staleCollisionState rfl

/-! ### Claim C3 -/

/-- Claim C3: during an `Active` tick, the state transitions to `GameOver`
exactly when some object of the post-movement set satisfies the four strict
inequalities of the rectangle-overlap test against the player rectangle the
check reads (left edge `s.player.x`, the position at the start of the
tick). -/
theorem gameOver_iff_overlap (now r : ℚ) (s : AppState)
    (h : s.gameState = GameState.Active) :
    ((gameLoop now r s).gameState = GameState.GameOver
      ↔ ∃ o ∈ (gameLoop now r s).objects,
          o.y + o.size > PLAYER_Y_POSITION
          ∧ o.y < PLAYER_Y_POSITION + PLAYER_HEIGHT
          ∧ o.x + o.size > s.player.x
          ∧ o.x < s.player.x + PLAYER_WIDTH) := by
  rw [gameLoop_gameOver_iff_any now r s h, List.any_eq_true]
  constructor
  · rintro ⟨o, ho, hc⟩
    exact ⟨o, ho, (collides_iff _ o).mp hc⟩
  · rintro ⟨o, ho, hc⟩
    exact ⟨o, ho, (collides_iff _ o).mpr hc⟩

/-- Claim C3 witness at `directHitState`. -/
theorem gameOver_iff_overlap_witness :
    ((gameLoop 1000 0 directHitState).gameState = GameState.GameOver
      ↔ ∃ o ∈ (gameLoop 1000 0 directHitState).objects,
          o.y + o.size > PLAYER_Y_POSITION
          ∧ o.y < PLAYER_Y_POSITION + PLAYER_HEIGHT
          ∧ o.x + o.size > directHitState.player.x
          ∧ o.x < directHitState.player.x + PLAYER_WIDTH) :=
  gameOver_iff_overlap 1000 0 directHitState rfl

/-! ### Claim C4 -/

/-- Claim C4: the score of a tick is `score + 1` exactly on `Active` ticks
(also when that very tick detects a collision and enters `GameOver`), and
is unchanged on `Ready`, `Paused` and `GameOver` ticks. -/
theorem score_per_tick (now r : ℚ) (s : AppState) :
    (gameLoop now r s).score =
      if s.gameState = GameState.Active then s.score + 1 else s.score := by
  by_cases h : s.gameState = GameState.Active
  · rw [gameLoop_active now r s h, if_pos h]
    simp [spawnStep_score]
  · rw [gameLoop_inactive now r s h, if_neg h]

/-! ### Claim C5 -/

/-- Claim C5: the movement step returns
`clamp (x − PLAYER_SPEED·[left held] + PLAYER_SPEED·[right held]) 0 (GAME_WIDTH − PLAYER_WIDTH)`,
and consequently the player `x` after any `Active` tick lies in
`[0, GAME_WIDTH − PLAYER_WIDTH]`. -/
theorem movement_clamped (now r : ℚ) (keys : List String) (p : PlayerState) (s : AppState) :
    (movePlayer keys p).x
      = max 0 (min (GAME_WIDTH - PLAYER_WIDTH)
          (p.x - PLAYER_SPEED * (if keys.contains "ArrowLeft" then 1 else 0)
               + PLAYER_SPEED * (if keys.contains "ArrowRight" then 1 else 0)))
    ∧ (s.gameState = GameState.Active →
        0 ≤ (gameLoop now r s).player.x
        ∧ (gameLoop now r s).player.x ≤ GAME_WIDTH - PLAYER_WIDTH) := by
  constructor
  · unfold movePlayer
    cases hb1 : keys.contains "ArrowLeft" <;> cases hb2 : keys.contains "ArrowRight" <;>
      simp only [hb1, hb2] <;> norm_num
  · intro h
    have hp : (gameLoop now r s).player = movePlayer s.keysPressed s.player := by
      rw [gameLoop_active now r s h]
    rw [hp]
    unfold movePlayer
    refine ⟨le_max_left 0 _, max_le ?_ (min_le_left _ _)⟩
    norm_num [GAME_WIDTH, PLAYER_WIDTH]

/-- Claim C5 witness: the clamp formula and the post-tick bounds at a
concrete `Active` state. -/
theorem movement_clamped_witness :
    0 ≤ (gameLoop 2100 0 liveActiveState).player.x
    ∧ (gameLoop 2100 0 liveActiveState).player.x ≤ GAME_WIDTH - PLAYER_WIDTH :=
  (movement_clamped 2100 0 ["ArrowLeft"] initialPlayer liveActiveState).2 rfl

/-! ### Claim C6 -/

/-- Claim C6: each `Active` tick moves every object down by exactly
`OBJECT_SPEED` leaving `id`, `x` and `size` unchanged; the exposed
post-tick set contains no object with `y ≥ GAME_HEIGHT`; every object of
the post-tick set is the moved image of a pre-tick object or of the one
object spawned this tick (so removed objects never re-enter); a pre-tick
object is retained exactly when its moved `y` is still short of
`GAME_HEIGHT`. -/
theorem objects_fall_and_filter (now r : ℚ) (s : AppState)
    (h : s.gameState = GameState.Active) :
    (∀ o : FallingObject, (moveObject o).y = o.y + OBJECT_SPEED
        ∧ (moveObject o).id = o.id ∧ (moveObject o).x = o.x ∧ (moveObject o).size = o.size)
    ∧ (∀ o ∈ (gameLoop now r s).objects, o.y < GAME_HEIGHT)
    ∧ (∀ o ∈ (gameLoop now r s).objects,
        (∃ o' ∈ s.objects, o = moveObject o')
        ∨ (now - s.lastObjectSpawn > OBJECT_SPAWN_INTERVAL
            ∧ o = moveObject (mkSpawnedObject now r)))
    ∧ (∀ o' ∈ s.objects, o'.y + OBJECT_SPEED < GAME_HEIGHT →
        moveObject o' ∈ (gameLoop now r s).objects)
    ∧ (∀ o' ∈ s.objects, GAME_HEIGHT ≤ o'.y + OBJECT_SPEED →
        moveObject o' ∉ (gameLoop now r s).objects) := by
  have hobj := gameLoop_objects now r s h
  refine ⟨fun o => ⟨rfl, rfl, rfl, rfl⟩, ?_, ?_, ?_, ?_⟩
  · intro o ho
    rw [hobj] at ho
    exact of_decide_eq_true (List.mem_filter.mp ho).2
  · intro o ho
    rw [hobj, List.mem_filter] at ho
    obtain ⟨homap, _⟩ := ho
    rw [List.mem_map] at homap
    obtain ⟨o', ho', rfl⟩ := homap
    rw [spawnStep_objects] at ho'
    by_cases hc : now - s.lastObjectSpawn > OBJECT_SPAWN_INTERVAL
    · rw [if_pos hc] at ho'
      rcases List.mem_append.mp ho' with hmem | hmem
      · exact Or.inl ⟨o', hmem, rfl⟩
      · rw [List.mem_singleton] at hmem
        exact Or.inr ⟨hc, by rw [hmem]⟩
    · rw [if_neg hc] at ho'
      exact Or.inl ⟨o', ho', rfl⟩
  · intro o' ho' hy
    rw [hobj, List.mem_filter]
    refine ⟨?_, ?_⟩
    · rw [List.mem_map]
      refine ⟨o', ?_, rfl⟩
      rw [spawnStep_objects]
      split
      · exact List.mem_append_left _ ho'
      · exact ho'
    · exact decide_eq_true hy
  · intro o' ho' hy hmem
    rw [hobj] at hmem
    have hlt : (moveObject o').y < GAME_HEIGHT :=
      of_decide_eq_true (List.mem_filter.mp hmem).2
    exact absurd hlt (not_lt.mpr hy)

/-- Claim C6 witness: the object of `liveActiveState`, moved, is retained
by the tick. -/
theorem objects_fall_and_filter_witness :
    moveObject { id := 7, x := 10, y := 50, size := 25 }
      ∈ (gameLoop 2100 0 liveActiveState).objects :=
  (objects_fall_and_filter 2100 0 liveActiveState rfl).2.2.2.1
    { id := 7, x := 10, y := 50, size := 25 }
    (by simp [liveActiveState])
    (by norm_num [OBJECT_SPEED, GAME_HEIGHT])

/-! ### Claim C7 -/

/-- A `Paused` state with an armed combo whose first press happened
1000 ms before the upcoming second press. -/
def pausedArmedState : AppState :=
  { gameState := GameState.Paused
    player := initialPlayer
    objects := []
    score := 17
    pauseComboProgress := 25
    keysPressed := ["ArrowLeft", "ArrowRight"]
    lastObjectSpawn := 999000
    lastComboPressTime := 999000
    comboStartTime := 999000
    comboAnimationActive := true }

/-- Claim C7: a qualifying press while `Ready` or `GameOver` changes
nothing; while `Active` or `Paused` it toggles the game state and fully
resets the combo machine (progress 0, decay cancelled, `lastComboPressTime`
cleared) exactly when the combo is armed (`lastComboPressTime ≠ 0`) and
`now − lastComboPressTime < PAUSE_COMBO_TIMEOUT`, and otherwise arms the
combo, recording `lastComboPressTime = comboStartTime = now` and starting
the decay animation.  The hypothesis `PAUSE_COMBO_TIMEOUT ≤ now` reflects
that `now` is `Date.now()`, milliseconds since the 1970 epoch, far above
the 4000 ms timeout in any real execution; the code encodes the idle combo
state as `lastComboPressTime = 0`. -/
theorem pauseCombo_spec (now : ℚ) (s : AppState)
    (hnow : PAUSE_COMBO_TIMEOUT ≤ now) :
    ((s.gameState = GameState.Ready ∨ s.gameState = GameState.GameOver) →
        handlePauseCombo now s = s)
    ∧ ((s.gameState = GameState.Active ∨ s.gameState = GameState.Paused) →
        if s.lastComboPressTime ≠ 0 ∧ now - s.lastComboPressTime < PAUSE_COMBO_TIMEOUT then
          (handlePauseCombo now s).gameState
              = (if s.gameState = GameState.Active then GameState.Paused
                 else GameState.Active)
          ∧ (handlePauseCombo now s).lastComboPressTime = 0
          ∧ (handlePauseCombo now s).pauseComboProgress = 0
          ∧ (handlePauseCombo now s).comboAnimationActive = false
          ∧ (handlePauseCombo now s).player = s.player
          ∧ (handlePauseCombo now s).objects = s.objects
          ∧ (handlePauseCombo now s).score = s.score
        else
          (handlePauseCombo now s).gameState = s.gameState
          ∧ (handlePauseCombo now s).lastComboPressTime = now
          ∧ (handlePauseCombo now s).comboStartTime = now
          ∧ (handlePauseCombo now s).comboAnimationActive = true
          ∧ (handlePauseCombo now s).pauseComboProgress = s.pauseComboProgress
          ∧ (handlePauseCombo now s).player = s.player
          ∧ (handlePauseCombo now s).objects = s.objects
          ∧ (handlePauseCombo now s).score = s.score) := by
  constructor
  · rintro (hg | hg) <;>
      · unfold handlePauseCombo
        rw [if_pos ⟨by simp [hg], by simp [hg]⟩]
  · intro hg
    by_cases hcond : s.lastComboPressTime ≠ 0 ∧ now - s.lastComboPressTime < PAUSE_COMBO_TIMEOUT
    · rw [if_pos hcond]
      unfold handlePauseCombo cleanupCombo
      rw [if_neg (by rcases hg with hg | hg <;> simp [hg]), if_pos hcond.2]
      rcases hg with hg | hg <;> simp [hg]
    · rw [if_neg hcond]
      have hge : ¬ now - s.lastComboPressTime < PAUSE_COMBO_TIMEOUT := by
        intro hlt
        apply hcond
        refine ⟨fun h0 => ?_, hlt⟩
        rw [h0, sub_zero] at hlt
        exact absurd hnow (not_le.mpr hlt)
      unfold handlePauseCombo
      rw [if_neg (by rcases hg with hg | hg <;> simp [hg]), if_neg hge]
      exact ⟨rfl, rfl, rfl, rfl, rfl, rfl, rfl, rfl⟩

/-- Claim C7 witness: a second qualifying press 1000 ms after arming, while
`Paused`, resumes the game and resets the combo machine. -/
theorem pauseCombo_spec_witness :
    (handlePauseCombo 1000000 pausedArmedState).gameState = GameState.Active
    ∧ (handlePauseCombo 1000000 pausedArmedState).pauseComboProgress = 0
    ∧ (handlePauseCombo 1000000 pausedArmedState).lastComboPressTime = 0 := by
  have h := (pauseCombo_spec 1000000 pausedArmedState
      (by norm_num [PAUSE_COMBO_TIMEOUT])).2 (Or.inr rfl)
  rw [if_pos ⟨by norm_num [pausedArmedState],
      by norm_num [pausedArmedState, PAUSE_COMBO_TIMEOUT]⟩] at h
  refine ⟨?_, h.2.2.1, h.2.1⟩
  rw [h.1]
  norm_num [pausedArmedState]

/-! ### Claim C8 -/

/-- An `Active` state whose last spawn is long past due. -/
def spawnDueState : AppState :=
  { liveActiveState with lastObjectSpawn := 0 }

/-- Claim C8: an `Active` tick appends exactly one new object when the
wall-clock time since the last spawn exceeds `OBJECT_SPAWN_INTERVAL` (also
recording the new spawn time) and none otherwise; the created object has
`y = −OBJECT_SIZE`, `id = now` (the spawn timestamp) and, for a
`Math.random()` draw `r ∈ [0, 1)`, `x = r·(GAME_WIDTH − OBJECT_SIZE)` lies
in `[0, GAME_WIDTH − OBJECT_SIZE]`. -/
theorem spawn_spec (now r : ℚ) (s : AppState) (h0 : 0 ≤ r) (h1 : r < 1) :
    (s.gameState = GameState.Active →
        (gameLoop now r s).objects
            = ((spawnStep now r s).objects.map moveObject).filter
                (fun o => decide (o.y < GAME_HEIGHT))
        ∧ (gameLoop now r s).lastObjectSpawn = (spawnStep now r s).lastObjectSpawn)
    ∧ (if now - s.lastObjectSpawn > OBJECT_SPAWN_INTERVAL then
        (spawnStep now r s).objects = s.objects ++ [mkSpawnedObject now r]
        ∧ (spawnStep now r s).lastObjectSpawn = now
      else spawnStep now r s = s)
    ∧ (mkSpawnedObject now r).y = -OBJECT_SIZE
    ∧ (mkSpawnedObject now r).id = now
    ∧ 0 ≤ (mkSpawnedObject now r).x
    ∧ (mkSpawnedObject now r).x ≤ GAME_WIDTH - OBJECT_SIZE := by
  have hW : (0:ℚ) ≤ GAME_WIDTH - OBJECT_SIZE := by norm_num [GAME_WIDTH, OBJECT_SIZE]
  refine ⟨fun h => ⟨?_, ?_⟩, ?_, rfl, rfl, ?_, ?_⟩
  · rw [gameLoop_active now r s h]
  · rw [gameLoop_active now r s h]
  · unfold spawnStep
    split
    · exact ⟨rfl, rfl⟩
    · rfl
  · exact mul_nonneg h0 hW
  · calc r * (GAME_WIDTH - OBJECT_SIZE)
        ≤ 1 * (GAME_WIDTH - OBJECT_SIZE) := mul_le_mul_of_nonneg_right (le_of_lt h1) hW
      _ = GAME_WIDTH - OBJECT_SIZE := one_mul _

/-- Claim C8 witness: a spawn at `now = 2100`, `r = 1/2`, from a state last
spawned at time 0. -/
theorem spawn_spec_witness :
    (spawnStep 2100 (1/2) spawnDueState).objects
        = spawnDueState.objects ++ [mkSpawnedObject 2100 (1/2)]
    ∧ (spawnStep 2100 (1/2) spawnDueState).lastObjectSpawn = 2100 := by
  have h := (spawn_spec 2100 (1/2) spawnDueState (by norm_num) (by norm_num)).2.1
  rwa [if_pos (by norm_num [spawnDueState, liveActiveState, OBJECT_SPAWN_INTERVAL])] at h

/-! ### Claim C9 -/

/-- Claim C9 counterexample: invoking the start action (`resetGame` — the
handler behind both the Start and the Restart button) while the game is
`Active` is not a no-op: the score is reset from 5 to 0 and the object set
is cleared. -/
theorem start_while_active_not_noop :
    liveActiveState.gameState = GameState.Active
    ∧ (resetGame liveActiveState).score ≠ liveActiveState.score
    ∧ (resetGame liveActiveState).objects ≠ liveActiveState.objects := by
  decide

/-- Claim C9 (amended): `resetGame` carries no state guard — invoked in any
state (including `Active` or `Paused`) it produces the same full reset and
enters `Active`; the UI merely never renders its button outside `Ready` and
`GameOver`.  Only `resumeGame` is guarded: outside `Paused` it is a no-op. -/
theorem resetGame_unconditional (s : AppState) :
    resetGame s = resetGame { s with gameState := GameState.Ready }
    ∧ (resetGame s).gameState = GameState.Active
    ∧ (resetGame s).score = 0
    ∧ (resetGame s).objects = []
    ∧ (s.gameState ≠ GameState.Paused → resumeGame s = s) := by
  refine ⟨rfl, rfl, rfl, rfl, fun h => ?_⟩
  unfold resumeGame
  rw [if_neg h]

/-- Claim C9 witness: the guarded `resumeGame` at a concrete non-`Paused`
state. -/
theorem resetGame_unconditional_witness :
    resumeGame liveActiveState = liveActiveState :=
  (resetGame_unconditional liveActiveState).2.2.2.2 (by decide)

/-! ### Claim C10 -/

/-- Claim C10: when both `ArrowLeft` and `ArrowRight` are held, the two
speed deltas cancel, so for any in-range position the movement step returns
`x` unchanged — holding the pause-gesture keys never moves the player. -/
theorem both_arrows_cancel (keys : List String) (p : PlayerState)
    (h0 : 0 ≤ p.x) (h1 : p.x ≤ GAME_WIDTH - PLAYER_WIDTH)
    (hl : keys.contains "ArrowLeft" = true)
    (hr : keys.contains "ArrowRight" = true) :
    (movePlayer keys p).x = p.x := by
  unfold movePlayer
  simp only [hl, hr, if_true]
  have hx : p.x - PLAYER_SPEED + PLAYER_SPEED = p.x := by ring
  rw [hx, min_eq_right h1, max_eq_right h0]

/-- Claim C10 witness: both arrows held at the initial player position. -/
theorem both_arrows_cancel_witness :
    (movePlayer ["ArrowLeft", "ArrowRight"] initialPlayer).x = initialPlayer.x :=
  both_arrows_cancel ["ArrowLeft", "ArrowRight"] initialPlayer
    (by norm_num [initialPlayer, GAME_WIDTH, PLAYER_WIDTH])
    (by norm_num [initialPlayer, GAME_WIDTH, PLAYER_WIDTH])
    (by rfl) (by rfl)

end ArrowCombo
